import Mathlib

/-!
# Desired-state constructors of the DSE operator

A shallow embedding of `operator/pkg/reconciliation/constructor.go`: the
constructors of the Kubernetes objects of a DSE datacenter (cluster service,
seed service, per-rack statefulset, pod disruption budget) and the
progress-label step `addOperatorProgressLabel`.

Kubernetes API objects are records holding the fields the constructors set
(every other field keeps its Go zero value and is given here as a default).
Go maps `map[string]string` are association lists read with `LabelMap.get`.
-/

set_option linter.dupNamespace false

namespace Reconciliation

/-! ## Go values -/

/-- A Go `error` value, identified by its message. -/
abbrev GoError := String

/-- Conversion `int32(n)` of a Go integer: two's complement wrap-around. -/
def int32 (n : Int) : Int := (n + 2 ^ 31) % 2 ^ 32 - 2 ^ 31

/-- A Go `map[string]string`, as an association list (first binding wins). -/
abbrev LabelMap := List (String × String)

/-- Map read `m[k]` with the comma-ok result folded into an `Option`. -/
def LabelMap.get (m : LabelMap) (k : String) : Option String :=
  List.lookup k m

/-- Map write `m[k] = v`: replaces the binding of `k`, keeps the others. -/
def LabelMap.set (m : LabelMap) (k v : String) : LabelMap :=
  (k, v) :: m.filter (fun p => !(p.1 == k))

/-- Two maps hold the same keys with the same values. -/
def LabelMap.Same (m₁ m₂ : LabelMap) : Prop :=
  ∀ k, m₁.get k = m₂.get k

/-- Every key/value pair of `m₁` is a key/value pair of `m₂`. -/
def LabelMap.Sub (m₁ m₂ : LabelMap) : Prop :=
  ∀ k v, m₁.get k = some v → m₂.get k = some v

/-- The value `intstr.IntOrString`. -/
inductive IntOrString where
  | int (IntVal : Int)
  | str (StrVal : String)
  deriving DecidableEq

/-- The function `intstr.FromInt`. -/
def IntOrString.FromInt (val : Int) : IntOrString := .int (int32 val)

/-! ## Kubernetes objects (`metav1`, `corev1`, `appsv1`, `policyv1beta1`) -/

structure ObjectMeta where
  Name : String := ""
  Namespace : String := ""
  Labels : LabelMap := []
  deriving DecidableEq

structure LabelSelector where
  MatchLabels : LabelMap := []
  deriving DecidableEq

structure ServicePort where
  Name : String
  Port : Int
  TargetPort : IntOrString
  deriving DecidableEq

structure ClientIPConfig where
  TimeoutSeconds : Option Int
  deriving DecidableEq

structure SessionAffinityConfig where
  ClientIP : Option ClientIPConfig
  deriving DecidableEq

/-- The value `corev1.ServiceSpec`; the Go field `Type` is `ServiceType` here. -/
structure ServiceSpec where
  Ports : List ServicePort := []
  Selector : LabelMap := []
  ClusterIP : String := ""
  ServiceType : String := ""
  SessionAffinity : String := ""
  PublishNotReadyAddresses : Bool := false
  SessionAffinityConfig : Option SessionAffinityConfig := none
  deriving DecidableEq

structure Service where
  ObjectMeta : ObjectMeta
  Spec : ServiceSpec
  deriving DecidableEq

structure PodAffinityTerm where
  LabelSelector : Option LabelSelector
  TopologyKey : String
  deriving DecidableEq

structure WeightedPodAffinityTerm where
  Weight : Int
  PodAffinityTerm : PodAffinityTerm
  deriving DecidableEq

structure PodAffinity where
  RequiredDuringSchedulingIgnoredDuringExecution : List PodAffinityTerm := []
  PreferredDuringSchedulingIgnoredDuringExecution : List WeightedPodAffinityTerm := []
  deriving DecidableEq

structure PodAntiAffinity where
  RequiredDuringSchedulingIgnoredDuringExecution : List PodAffinityTerm := []
  PreferredDuringSchedulingIgnoredDuringExecution : List WeightedPodAffinityTerm := []
  deriving DecidableEq

structure Affinity where
  PodAffinity : Option PodAffinity := none
  PodAntiAffinity : Option PodAntiAffinity := none
  deriving DecidableEq

structure PodSecurityContext where
  RunAsUser : Option Int := none
  RunAsGroup : Option Int := none
  FSGroup : Option Int := none
  deriving DecidableEq

structure EmptyDirVolumeSource where
  Medium : String := ""
  deriving DecidableEq

structure VolumeSource where
  EmptyDir : Option EmptyDirVolumeSource := none
  deriving DecidableEq

structure Volume where
  Name : String
  VolumeSource : VolumeSource
  deriving DecidableEq

structure VolumeMount where
  Name : String
  MountPath : String
  deriving DecidableEq

structure ObjectFieldSelector where
  FieldPath : String
  deriving DecidableEq

structure EnvVarSource where
  FieldRef : Option ObjectFieldSelector := none
  deriving DecidableEq

structure EnvVar where
  Name : String
  Value : String := ""
  ValueFrom : Option EnvVarSource := none
  deriving DecidableEq

structure ContainerPort where
  Name : String
  ContainerPort : Int
  deriving DecidableEq

structure HTTPGetAction where
  Port : IntOrString
  Path : String
  deriving DecidableEq

structure Handler where
  HTTPGet : Option HTTPGetAction := none
  deriving DecidableEq

structure Probe where
  Handler : Handler
  InitialDelaySeconds : Int := 0
  PeriodSeconds : Int := 0
  deriving DecidableEq

structure Container where
  Name : String
  Image : String
  Env : List EnvVar := []
  Ports : List ContainerPort := []
  LivenessProbe : Option Probe := none
  ReadinessProbe : Option Probe := none
  VolumeMounts : List VolumeMount := []
  deriving DecidableEq

structure PodSpec where
  Affinity : Option Affinity := none
  SecurityContext : Option PodSecurityContext := none
  Volumes : List Volume := []
  InitContainers : List Container := []
  ServiceAccountName : String := ""
  Containers : List Container := []
  deriving DecidableEq

structure PodTemplateSpec where
  ObjectMeta : ObjectMeta
  Spec : PodSpec
  deriving DecidableEq

/-- The value `corev1.ResourceRequirements`: resource name to quantity. -/
structure ResourceRequirements where
  Limits : List (String × String) := []
  Requests : List (String × String) := []
  deriving DecidableEq

/-- The type `corev1.PersistentVolumeAccessMode`. -/
inductive PersistentVolumeAccessMode where
  | ReadWriteOnce
  | ReadOnlyMany
  | ReadWriteMany
  deriving DecidableEq

structure PersistentVolumeClaimSpec where
  AccessModes : List PersistentVolumeAccessMode := []
  Resources : ResourceRequirements := {}
  StorageClassName : Option String := none
  deriving DecidableEq

structure PersistentVolumeClaim where
  ObjectMeta : ObjectMeta
  Spec : PersistentVolumeClaimSpec
  deriving DecidableEq

/-- The type `appsv1.PodManagementPolicyType`. -/
inductive PodManagementPolicyType where
  | OrderedReadyPodManagement
  | ParallelPodManagement
  deriving DecidableEq

structure StatefulSetSpec where
  Selector : Option LabelSelector := none
  Replicas : Option Int := none
  ServiceName : String := ""
  PodManagementPolicy : PodManagementPolicyType
  Template : PodTemplateSpec
  VolumeClaimTemplates : List PersistentVolumeClaim := []
  deriving DecidableEq

structure StatefulSet where
  ObjectMeta : ObjectMeta
  Spec : StatefulSetSpec
  deriving DecidableEq

structure PodDisruptionBudgetSpec where
  Selector : Option LabelSelector := none
  MaxUnavailable : Option IntOrString := none
  deriving DecidableEq

structure PodDisruptionBudget where
  ObjectMeta : ObjectMeta
  Spec : PodDisruptionBudgetSpec
  deriving DecidableEq

/-! ## The API package `datastaxv1alpha1` and the reconciliation context -/

/-- Modelled from the spec: the type `DseStorageClaim` of the API package is
not among the sources. The data model gives a storage claim an access mode, a
size (resource request) and a storage class name; the constructor reads the
fields `Resources` and `StorageClassName`. -/
structure DseStorageClaim where
  AccessMode : PersistentVolumeAccessMode
  StorageClassName : String
  Resources : ResourceRequirements
  deriving DecidableEq

/-- Modelled from the spec: a rack of the datacenter, a name and a desired
replica count (type of the API package, not among the sources). -/
structure DseRack where
  Name : String
  Replicas : Int
  deriving DecidableEq

/-- Modelled from the spec: the `Spec` part of the datacenter object (type of
the API package, not among the sources). The constructors read `ClusterName`,
`StorageClaim` and `Labels`; a nil label map is `none`. -/
structure DseDatacenterSpec where
  ClusterName : String
  DseVersion : String := ""
  Racks : List DseRack := []
  StorageClaim : Option DseStorageClaim := none
  Config : String := ""
  Labels : Option LabelMap := none
  deriving DecidableEq

/-- Modelled from the spec: the datacenter object `DseDatacenter` (type of the
API package, not among the sources), with the object name and namespace the
constructors read. -/
structure DseDatacenter where
  Name : String
  Namespace : String
  Spec : DseDatacenterSpec
  deriving DecidableEq

/-- Modelled from the spec: what the constructors take from the API package
and is not among the sources, as parameters: the label-key constants, and the
accessors of the datacenter object for the serialized configuration (which may
fail), the version string and the server image. -/
structure Datastaxv1alpha1 where
  CLUSTER_LABEL : String
  DATACENTER_LABEL : String
  RACK_LABEL : String
  DseOperatorProgressLabel : String
  GetConfigAsJSON : DseDatacenter → Except GoError String
  GetDseVersion : DseDatacenter → String
  GetServerImage : DseDatacenter → String

/-- The three label keys of the cluster, datacenter and rack scopes are
pairwise different constants. -/
def Datastaxv1alpha1.KeysDistinct (P : Datastaxv1alpha1) : Prop :=
  P.CLUSTER_LABEL ≠ P.DATACENTER_LABEL ∧ P.CLUSTER_LABEL ≠ P.RACK_LABEL ∧
    P.DATACENTER_LABEL ≠ P.RACK_LABEL

instance (P : Datastaxv1alpha1) : Decidable P.KeysDistinct := by
  unfold Datastaxv1alpha1.KeysDistinct
  infer_instance

/-- Modelled from the spec: `GetClusterLabels` of the API package is not among
the sources. Cluster scope is the one label cluster key to cluster name. -/
def GetClusterLabels (P : Datastaxv1alpha1) (dseDatacenter : DseDatacenter) : LabelMap :=
  LabelMap.set [] P.CLUSTER_LABEL dseDatacenter.Spec.ClusterName

/-- Modelled from the spec: `GetDatacenterLabels` of the API package is not
among the sources. Datacenter scope is cluster scope together with the label
datacenter key to datacenter name. -/
def GetDatacenterLabels (P : Datastaxv1alpha1) (dseDatacenter : DseDatacenter) : LabelMap :=
  LabelMap.set (GetClusterLabels P dseDatacenter) P.DATACENTER_LABEL dseDatacenter.Name

/-- Modelled from the spec: `GetRackLabels` of the API package is not among the
sources. Rack scope is datacenter scope together with the label rack key to
rack name. -/
def GetRackLabels (P : Datastaxv1alpha1) (dseDatacenter : DseDatacenter)
    (rackName : String) : LabelMap :=
  LabelMap.set (GetDatacenterLabels P dseDatacenter) P.RACK_LABEL rackName

/-- One call of `ReqLogger.Error`: the error, the message, the key/value pairs. -/
structure LogRecord where
  err : GoError
  msg : String
  keysAndValues : List String
  deriving DecidableEq

/-- Modelled from the spec: the apply collaborator behind `rc.Client`, with
state `σ`. `Update` persists a full replacement of the object it is given and
answers with an error or with none, leaving the in-memory object as it is; it
is used only by the progress-label step. -/
structure Client (σ : Type) where
  Update : σ → DseDatacenter → σ × Option GoError

/-- Modelled from the spec: the reconciliation context (type of package
`dsereconciliation`, not among the sources): the datacenter object the step
mutates in place, the state of the apply collaborator, and the records written
to the request logger. -/
structure ReconciliationContext (σ : Type) where
  DseDatacenter : DseDatacenter
  Client : σ
  ReqLogger : List LogRecord := []

/-! ## The constructors -/

/-- Creates a headless service object for the DSE Datacenter. -/
def newServiceForDseDatacenter (P : Datastaxv1alpha1) (dseDatacenter : DseDatacenter) :
    Service :=
  let labels := GetDatacenterLabels P dseDatacenter
  { ObjectMeta := {
      Name := dseDatacenter.Spec.ClusterName ++ "-" ++ dseDatacenter.Name ++ "-service"
      Namespace := dseDatacenter.Namespace
      Labels := labels }
    Spec := {
      Selector := labels
      ServiceType := "ClusterIP"
      ClusterIP := "None"
      Ports := [
        { Name := "native", Port := 9042, TargetPort := IntOrString.FromInt 9042 },
        { Name := "inter-node-msg", Port := 8609, TargetPort := IntOrString.FromInt 8609 },
        { Name := "intra-node", Port := 7000, TargetPort := IntOrString.FromInt 7000 },
        { Name := "tls-intra-node", Port := 7001, TargetPort := IntOrString.FromInt 7001 },
        { Name := "mgmt-api", Port := 8080, TargetPort := IntOrString.FromInt 8080 },
        { Name := "prometheus", Port := 9103, TargetPort := IntOrString.FromInt 9103 } ] } }

/-- Creates a headless service owned by the DseDatacenter which will attach to
all seed nodes in the cluster. -/
def newSeedServiceForDseDatacenter (P : Datastaxv1alpha1) (dseDatacenter : DseDatacenter) :
    Service :=
  let labels := GetClusterLabels P dseDatacenter
  { ObjectMeta := {
      Name := dseDatacenter.Spec.ClusterName ++ "-seed-service"
      Namespace := dseDatacenter.Namespace
      Labels := labels }
    Spec := {
      Ports := []
      Selector := labels
      ClusterIP := "None"
      ServiceType := "ClusterIP"
      PublishNotReadyAddresses := true
      SessionAffinityConfig := some { ClientIP := some { TimeoutSeconds := none } } } }

/-- The mount of the configuration volume, `dseConfigVolumeMount`. -/
def dseConfigVolumeMount : VolumeMount :=
  { Name := "dse-config", MountPath := "/config" }

/-- Create a statefulset object for the DSE Datacenter. -/
def newStatefulSetForDseDatacenter (P : Datastaxv1alpha1) (rackName : String)
    (dseDatacenter : DseDatacenter) (replicaCount : Int) : Except GoError StatefulSet :=
  let replicaCountInt32 := int32 replicaCount
  let labels := GetRackLabels P dseDatacenter rackName
  let dseVersion := P.GetDseVersion dseDatacenter
  let userID : Int := 999
  let volumeCaimTemplates : List PersistentVolumeClaim := []
  let dseVolumeMounts : List VolumeMount := []
  let dseVolumeMounts := dseVolumeMounts ++ [dseConfigVolumeMount]
  match P.GetConfigAsJSON dseDatacenter with
  | .error err => .error err
  | .ok configData =>
    -- Add storage if storage claim defined
    let (dseVolumeMounts, volumeCaimTemplates) :=
      match dseDatacenter.Spec.StorageClaim with
      | none => (dseVolumeMounts, volumeCaimTemplates)
      | some storageClaim =>
        let pvName := "dse-data"
        (dseVolumeMounts ++ [{ Name := pvName, MountPath := "/var/lib/cassandra" }],
         [{ ObjectMeta := { Labels := labels, Name := pvName }
            Spec := {
              AccessModes := [PersistentVolumeAccessMode.ReadWriteOnce]
              Resources := storageClaim.Resources
              StorageClassName := some storageClaim.StorageClassName } }])
    .ok {
      ObjectMeta := {
        Name := dseDatacenter.Spec.ClusterName ++ "-" ++ dseDatacenter.Name ++ "-"
          ++ rackName ++ "-sts"
        Namespace := dseDatacenter.Namespace
        Labels := labels }
      Spec := {
        Selector := some { MatchLabels := labels }
        Replicas := some replicaCountInt32
        ServiceName := dseDatacenter.Spec.ClusterName ++ "-" ++ dseDatacenter.Name
          ++ "-service"
        PodManagementPolicy := PodManagementPolicyType.OrderedReadyPodManagement
        Template := {
          ObjectMeta := { Labels := labels }
          Spec := {
            Affinity := some {
              PodAffinity := some {
                PreferredDuringSchedulingIgnoredDuringExecution := [{
                  Weight := 100
                  PodAffinityTerm := {
                    LabelSelector := some { MatchLabels := [(P.RACK_LABEL, rackName)] }
                    TopologyKey := "failure-domain.beta.kubernetes.io/zone" } }] }
              PodAntiAffinity := some {
                PreferredDuringSchedulingIgnoredDuringExecution := [{
                  Weight := 90
                  PodAffinityTerm := {
                    LabelSelector := some {
                      MatchLabels := [(P.DATACENTER_LABEL, dseDatacenter.Name)] }
                    TopologyKey := "kubernetes.io/hostname" } }] } }
            SecurityContext := some {
              RunAsUser := some userID
              RunAsGroup := some userID
              FSGroup := some userID }
            Volumes := [{ Name := "dse-config", VolumeSource := { EmptyDir := some {} } }]
            InitContainers := [{
              Name := "dse-config-init"
              Image := "datastax-docker.jfrog.io/datastax/dse-server-config-builder:7.0.0-3e8847c"
              VolumeMounts := [dseConfigVolumeMount]
              Env := [
                { Name := "CONFIG_FILE_DATA", Value := configData },
                { Name := "POD_IP",
                  ValueFrom := some { FieldRef := some { FieldPath := "status.podIP" } } },
                { Name := "RACK_NAME",
                  ValueFrom := some { FieldRef := some {
                    FieldPath := "metadata.labels[\x27" ++ P.RACK_LABEL ++ "\x27]" } } },
                { Name := "DSE_VERSION", Value := dseVersion } ] }]
            ServiceAccountName := "dse-operator"
            Containers := [{
              Name := "dse"
              Image := P.GetServerImage dseDatacenter
              Env := [
                { Name := "DS_LICENSE", Value := "accept" },
                { Name := "DSE_AUTO_CONF_OFF", Value := "all" } ]
              Ports := [
                { Name := "native", ContainerPort := 9042 },
                { Name := "inter-node-msg", ContainerPort := 8609 },
                { Name := "intra-node", ContainerPort := 7000 },
                { Name := "tls-intra-node", ContainerPort := 7001 },
                { Name := "mgmt-api-http", ContainerPort := 8080 } ]
              LivenessProbe := some {
                Handler := { HTTPGet := some {
                  Port := IntOrString.FromInt 8080, Path := "/api/v0/probes/liveness" } }
                InitialDelaySeconds := 15
                PeriodSeconds := 15 }
              ReadinessProbe := some {
                Handler := { HTTPGet := some {
                  Port := IntOrString.FromInt 8080, Path := "/api/v0/probes/readiness" } }
                InitialDelaySeconds := 20
                PeriodSeconds := 10 }
              VolumeMounts := dseVolumeMounts }] } }
        VolumeClaimTemplates := volumeCaimTemplates } }

/-- Create a pod disruption budget object for a statefulset of the DSE
Datacenter. -/
def newPodDisruptionBudgetForStatefulSet (P : Datastaxv1alpha1)
    (dseDatacenter : DseDatacenter) (statefulSet : StatefulSet) : PodDisruptionBudget :=
  -- Right now, we will just have maxUnavailable at 1
  let maxUnavailable := IntOrString.FromInt 1
  let labels := GetDatacenterLabels P dseDatacenter
  { ObjectMeta := {
      Name := statefulSet.ObjectMeta.Name ++ "-pdb"
      Namespace := statefulSet.ObjectMeta.Namespace
      Labels := labels }
    Spec := {
      Selector := some { MatchLabels := labels }
      MaxUnavailable := some maxUnavailable } }

/-! ## The progress label -/

/-- The string type `dseOperatorStatus` of the progress label. -/
abbrev dseOperatorStatus := String

def updating : dseOperatorStatus := "Updating"

def ready : dseOperatorStatus := "Ready"

/-- The step `addOperatorProgressLabel`: the context after the call and the
returned error (`none` for a nil error). The datacenter object is mutated in
place, so the context after the call holds the label map as the call left it. -/
def addOperatorProgressLabel {σ : Type} (P : Datastaxv1alpha1) (C : Client σ)
    (rc : ReconciliationContext σ) (status : dseOperatorStatus) :
    ReconciliationContext σ × Option GoError :=
  let labelVal : String := status
  let labels : LabelMap :=
    match rc.DseDatacenter.Spec.Labels with
    | none => []
    | some m => m
  let lookup := labels.get P.DseOperatorProgressLabel
  let ok := lookup.isSome
  let existingLabel := lookup.getD ""
  if ok && existingLabel == labelVal then
    -- early return, no need to ping k8s
    ({ rc with DseDatacenter := { rc.DseDatacenter with
        Spec := { rc.DseDatacenter.Spec with Labels := some labels } } }, none)
  else
    -- set the label and push it to k8s
    let labels := labels.set P.DseOperatorProgressLabel labelVal
    let dc : DseDatacenter := { rc.DseDatacenter with
      Spec := { rc.DseDatacenter.Spec with Labels := some labels } }
    match C.Update rc.Client dc with
    | (client, some err) =>
      ({ DseDatacenter := dc, Client := client,
         ReqLogger := rc.ReqLogger ++ [{
           err := err, msg := "error updating label",
           keysAndValues := ["label", P.DseOperatorProgressLabel, "value", labelVal] }] },
       some err)
    | (client, none) =>
      ({ DseDatacenter := dc, Client := client, ReqLogger := rc.ReqLogger }, none)

/-- The value of the progress label held by the datacenter object, if any. -/
def progressLabel (P : Datastaxv1alpha1) (dc : DseDatacenter) : Option String :=
  dc.Spec.Labels.bind (fun m => m.get P.DseOperatorProgressLabel)

/-- The datacenter object with the progress label set to `status` in its label
map (an absent map counts as empty). -/
def withProgressLabel (P : Datastaxv1alpha1) (dc : DseDatacenter) (status : String) :
    DseDatacenter :=
  { dc with Spec := { dc.Spec with
      Labels := some ((dc.Spec.Labels.getD []).set P.DseOperatorProgressLabel status) } }

/-- Two calls of `addOperatorProgressLabel` in a row with the same status: the
outcome of the first call and the outcome of the second. -/
def addOperatorProgressLabelTwice {σ : Type} (P : Datastaxv1alpha1) (C : Client σ)
    (rc : ReconciliationContext σ) (status : dseOperatorStatus) :
    (ReconciliationContext σ × Option GoError) × (ReconciliationContext σ × Option GoError) :=
  let first := addOperatorProgressLabel P C rc status
  (first, addOperatorProgressLabel P C first.1 status)

/-! ## Concrete inputs -/

/-- An instance of the API package: the label keys of the three scopes and of
the progress label, a configuration accessor that succeeds with the raw
payload, and accessors reading the version field. -/
def demoApi : Datastaxv1alpha1 where
  CLUSTER_LABEL := "cluster"
  DATACENTER_LABEL := "datacenter"
  RACK_LABEL := "rack"
  DseOperatorProgressLabel := "progress"
  GetConfigAsJSON := fun dc => .ok dc.Spec.Config
  GetDseVersion := fun dc => dc.Spec.DseVersion
  GetServerImage := fun dc => "datastax/dse-server:" ++ dc.Spec.DseVersion

/-- The same instance with a configuration accessor that always fails. -/
def failingApi : Datastaxv1alpha1 :=
  { demoApi with GetConfigAsJSON := fun _ => .error "json: unsupported value" }

/-- Datacenter `dc1` of cluster `demo`, without a storage claim. -/
def demoDc : DseDatacenter where
  Name := "dc1"
  Namespace := "default"
  Spec := { ClusterName := "demo", DseVersion := "6.8.0", Config := "{}" }

/-- A storage claim asking for 5Gi of class `standard`. -/
def demoClaim : DseStorageClaim where
  AccessMode := PersistentVolumeAccessMode.ReadWriteMany
  StorageClassName := "standard"
  Resources := { Requests := [("storage", "5Gi")] }

/-- Datacenter `dc1` of cluster `demo`, with a storage claim. -/
def demoDcStorage : DseDatacenter :=
  { demoDc with Spec := { demoDc.Spec with StorageClaim := some demoClaim } }

/-- A write-counting stub of the apply collaborator: every `Update` succeeds
and adds one to the count. -/
def countingClient : Client Nat where
  Update := fun n _ => (n + 1, none)

/-- A stub of the apply collaborator whose every `Update` is counted and fails. -/
def failingClient : Client Nat where
  Update := fun n _ => (n + 1, some "conflict")

/-- The statefulset built for rack `rack1` of `demoDc` with 3 replicas. -/
def demoStatefulSet : StatefulSet :=
  (newStatefulSetForDseDatacenter demoApi "rack1" demoDc 3).toOption.get (by decide)

/-- The statefulset built for rack `rack1` of `demoDcStorage` with 3 replicas. -/
def demoStatefulSetStorage : StatefulSet :=
  (newStatefulSetForDseDatacenter demoApi "rack1" demoDcStorage 3).toOption.get (by decide)

/-- Datacenter `dc1` of cluster `demo` whose label map holds the progress label
with the value `Ready`. -/
def readyDc : DseDatacenter :=
  { demoDc with Spec := { demoDc.Spec with Labels := some [("progress", "Ready")] } }


/-! ## Object names -/

/-- The string `s` starts with `p`. -/
def StartsWith (s p : String) : Prop := ∃ rest : String, s = p ++ rest

/-- The string `s` ends with `q`. -/
def EndsWith (s q : String) : Prop := ∃ front : String, s = front ++ q

/-- The statefulset built for rack `rack2` of `demoDc` with 2 replicas. -/
def demoStatefulSetRack2 : StatefulSet :=
  (newStatefulSetForDseDatacenter demoApi "rack2" demoDc 2).toOption.get (by decide)

/-! ## Label maps -/

theorem LabelMap.lookup_filter_ne (m : LabelMap) (k k' : String) (h : k' ≠ k) :
    List.lookup k' (m.filter (fun p => !(p.1 == k))) = List.lookup k' m := by
  induction m with
  | nil => rfl
  | cons p m ih =>
    obtain ⟨a, b⟩ := p
    by_cases ha : a = k
    · subst ha
      have hne : (k' == a) = false := by simpa using h
      simp [List.filter, List.lookup, hne, ih]
    · have hf : (!(a == k)) = true := by simpa using ha
      simp only [List.filter, hf, List.lookup, ih]

theorem LabelMap.get_set (m : LabelMap) (k v k' : String) :
    (m.set k v).get k' = if k' = k then some v else m.get k' := by
  unfold LabelMap.set LabelMap.get
  by_cases h : k' = k
  · subst h; simp [List.lookup]
  · have hne : (k' == k) = false := by simpa using h
    simp only [List.lookup, hne, if_neg h]
    exact LabelMap.lookup_filter_ne m k k' h

theorem GetClusterLabels_get (P : Datastaxv1alpha1) (dc : DseDatacenter) (k : String) :
    (GetClusterLabels P dc).get k =
      if k = P.CLUSTER_LABEL then some dc.Spec.ClusterName else none := by
  unfold GetClusterLabels
  rw [LabelMap.get_set]
  rfl

theorem GetDatacenterLabels_get (P : Datastaxv1alpha1) (dc : DseDatacenter) (k : String) :
    (GetDatacenterLabels P dc).get k =
      if k = P.DATACENTER_LABEL then some dc.Name
      else if k = P.CLUSTER_LABEL then some dc.Spec.ClusterName else none := by
  unfold GetDatacenterLabels
  rw [LabelMap.get_set, GetClusterLabels_get]

theorem GetRackLabels_get (P : Datastaxv1alpha1) (dc : DseDatacenter) (rackName k : String) :
    (GetRackLabels P dc rackName).get k =
      if k = P.RACK_LABEL then some rackName
      else if k = P.DATACENTER_LABEL then some dc.Name
      else if k = P.CLUSTER_LABEL then some dc.Spec.ClusterName else none := by
  unfold GetRackLabels
  rw [LabelMap.get_set, GetDatacenterLabels_get]

theorem cluster_sub_datacenter (P : Datastaxv1alpha1) (hK : P.KeysDistinct)
    (dc : DseDatacenter) :
    LabelMap.Sub (GetClusterLabels P dc) (GetDatacenterLabels P dc) := by
  intro k v hk
  rw [GetClusterLabels_get] at hk
  rw [GetDatacenterLabels_get]
  by_cases hc : k = P.CLUSTER_LABEL
  · subst hc
    simpa [hK.1] using hk
  · simp [hc] at hk

theorem datacenter_sub_rack (P : Datastaxv1alpha1) (hK : P.KeysDistinct)
    (dc : DseDatacenter) (rackName : String) :
    LabelMap.Sub (GetDatacenterLabels P dc) (GetRackLabels P dc rackName) := by
  intro k v hk
  rw [GetDatacenterLabels_get] at hk
  rw [GetRackLabels_get]
  by_cases hr : k = P.RACK_LABEL
  · subst hr
    have h1 : P.RACK_LABEL ≠ P.DATACENTER_LABEL := fun e => hK.2.2 e.symm
    have h2 : P.RACK_LABEL ≠ P.CLUSTER_LABEL := fun e => hK.2.1 e.symm
    simp [h1, h2] at hk
  · simpa [hr] using hk

theorem LabelMap.Sub.trans {a b c : LabelMap} (h₁ : LabelMap.Sub a b) (h₂ : LabelMap.Sub b c) :
    LabelMap.Sub a c :=
  fun k v h => h₂ k v (h₁ k v h)

/-- Shape of a successful statefulset construction: the labels placed on the
object, the selector and the pod template. -/
theorem newStatefulSet_labels (P : Datastaxv1alpha1) (rackName : String)
    (dc : DseDatacenter) (replicaCount : Int) (sts : StatefulSet)
    (h : newStatefulSetForDseDatacenter P rackName dc replicaCount = .ok sts) :
    sts.Spec.Selector = some { MatchLabels := GetRackLabels P dc rackName } ∧
      sts.Spec.Template.ObjectMeta.Labels = GetRackLabels P dc rackName ∧
      sts.ObjectMeta.Labels = GetRackLabels P dc rackName := by
  unfold newStatefulSetForDseDatacenter at h
  cases hc : P.GetConfigAsJSON dc with
  | error e => simp [hc] at h
  | ok configData =>
    simp only [hc] at h
    cases hs : dc.Spec.StorageClaim <;> simp only [hs, Except.ok.injEq] at h <;>
      subst h <;> exact ⟨rfl, rfl, rfl⟩

/-! ## Integer conversions -/

theorem int32_of_small (n : Int) (h₀ : -2147483648 ≤ n) (h₁ : n < 2147483648) : int32 n = n := by
  unfold int32
  omega

theorem FromInt_8080 : IntOrString.FromInt 8080 = .int 8080 := by decide

theorem FromInt_1 : IntOrString.FromInt 1 = .int 1 := by decide

/-! ## The progress-label step, case by case -/

/-- When the label map already holds the progress label with the requested
status, the step returns success and leaves the whole context as it was. -/
theorem addOperatorProgressLabel_of_held {σ : Type} (P : Datastaxv1alpha1) (C : Client σ)
    (rc : ReconciliationContext σ) (status : dseOperatorStatus)
    (h : progressLabel P rc.DseDatacenter = some status) :
    addOperatorProgressLabel P C rc status = (rc, none) := by
  obtain ⟨⟨name, ns, ⟨cn, ver, racks, claim, cfg, labels⟩⟩, client, log⟩ := rc
  cases labels with
  | none => simp [progressLabel] at h
  | some m =>
    simp only [progressLabel, Option.bind] at h
    simp [addOperatorProgressLabel, h]

/-- When the progress label is absent or holds another value, the step writes
the label in memory, calls `Update` once on the updated object, returns the
answer of that call and logs the error if there is one. -/
theorem addOperatorProgressLabel_of_not_held {σ : Type} (P : Datastaxv1alpha1) (C : Client σ)
    (rc : ReconciliationContext σ) (status : dseOperatorStatus)
    (h : progressLabel P rc.DseDatacenter ≠ some status) :
    (addOperatorProgressLabel P C rc status).1.DseDatacenter
        = withProgressLabel P rc.DseDatacenter status ∧
      (addOperatorProgressLabel P C rc status).1.Client
        = (C.Update rc.Client (withProgressLabel P rc.DseDatacenter status)).1 ∧
      (addOperatorProgressLabel P C rc status).2
        = (C.Update rc.Client (withProgressLabel P rc.DseDatacenter status)).2 ∧
      (addOperatorProgressLabel P C rc status).1.ReqLogger
        = rc.ReqLogger ++
          (match (C.Update rc.Client (withProgressLabel P rc.DseDatacenter status)).2 with
           | some err => [{ err := err, msg := "error updating label",
                            keysAndValues := ["label", P.DseOperatorProgressLabel,
                              "value", status] }]
           | none => []) := by
  obtain ⟨⟨name, ns, ⟨cn, ver, racks, claim, cfg, labels⟩⟩, client, log⟩ := rc
  cases labels with
  | none =>
    have hg : LabelMap.get [] P.DseOperatorProgressLabel = none := rfl
    simp only [addOperatorProgressLabel, withProgressLabel, hg, Option.getD, Option.isSome,
      Bool.false_and, Bool.false_eq_true, if_false]
    split <;> simp_all
  | some m =>
    simp only [progressLabel, Option.bind] at h
    cases hg : LabelMap.get m P.DseOperatorProgressLabel with
    | none =>
      simp only [addOperatorProgressLabel, withProgressLabel, hg, Option.getD, Option.isSome,
        Bool.false_and, Bool.false_eq_true, if_false]
      split <;> simp_all
    | some v =>
      rw [hg] at h
      have hv : (v == status) = false := by
        have : v ≠ status := fun e => h (by rw [e])
        simpa using this
      simp only [addOperatorProgressLabel, withProgressLabel, hg, Option.getD, Option.isSome,
        Bool.true_and, hv, Bool.false_eq_true, if_false]
      split <;> simp_all

theorem progressLabel_withProgressLabel (P : Datastaxv1alpha1) (dc : DseDatacenter)
    (status : String) :
    progressLabel P (withProgressLabel P dc status) = some status := by
  simp [progressLabel, withProgressLabel, LabelMap.get_set]

theorem withProgressLabel_other_labels (P : Datastaxv1alpha1) (dc : DseDatacenter)
    (status k : String) (hk : k ≠ P.DseOperatorProgressLabel) :
    ((withProgressLabel P dc status).Spec.Labels.getD []).get k
      = (dc.Spec.Labels.getD []).get k := by
  simp [withProgressLabel, LabelMap.get_set, hk]


/-! ## Strings and object names -/

theorem string_append_cancel_left {p a b : String} (h : p ++ a = p ++ b) : a = b := by
  apply String.ext
  have hd := congrArg String.data h
  simp only [String.data_append] at hd
  exact List.append_cancel_left hd

theorem string_append_cancel_right {a b q : String} (h : a ++ q = b ++ q) : a = b := by
  apply String.ext
  have hd := congrArg String.data h
  simp only [String.data_append] at hd
  exact List.append_cancel_right hd

/-- Name, namespace and governing service name of a successfully built
statefulset. -/
theorem newStatefulSet_names (P : Datastaxv1alpha1) (rackName : String)
    (dc : DseDatacenter) (replicaCount : Int) (sts : StatefulSet)
    (h : newStatefulSetForDseDatacenter P rackName dc replicaCount = .ok sts) :
    sts.ObjectMeta.Name
        = dc.Spec.ClusterName ++ "-" ++ dc.Name ++ "-" ++ rackName ++ "-sts" ∧
      sts.ObjectMeta.Namespace = dc.Namespace ∧
      sts.Spec.ServiceName = dc.Spec.ClusterName ++ "-" ++ dc.Name ++ "-service" := by
  unfold newStatefulSetForDseDatacenter at h
  cases hc : P.GetConfigAsJSON dc with
  | error e => simp [hc] at h
  | ok configData =>
    simp only [hc] at h
    cases hs : dc.Spec.StorageClaim <;> simp only [hs, Except.ok.injEq] at h <;>
      subst h <;> exact ⟨rfl, rfl, rfl⟩

/-! ## Selectors and labels -/

/-- C1: whenever `newStatefulSetForDseDatacenter` succeeds, the selector of the
returned statefulset has as its match labels exactly the labels of the pod
template, and both are the rack-scope labels derived for that rack. -/
theorem statefulSet_selector_eq_template_labels (P : Datastaxv1alpha1) (rackName : String)
    (dc : DseDatacenter) (replicaCount : Int) (sts : StatefulSet)
    (h : newStatefulSetForDseDatacenter P rackName dc replicaCount = .ok sts) :
    sts.Spec.Selector = some { MatchLabels := sts.Spec.Template.ObjectMeta.Labels } ∧
      sts.Spec.Template.ObjectMeta.Labels = GetRackLabels P dc rackName ∧
      (∀ sel, sts.Spec.Selector = some sel →
        LabelMap.Same sel.MatchLabels sts.Spec.Template.ObjectMeta.Labels) := by
  obtain ⟨h₁, h₂, _⟩ := newStatefulSet_labels P rackName dc replicaCount sts h
  refine ⟨by rw [h₁, h₂], h₂, ?_⟩
  intro sel hsel k
  rw [h₁] at hsel
  cases hsel
  rw [h₂]

/-- C1 at rack `rack1` of datacenter `dc1` of cluster `demo`, 3 replicas. -/
theorem statefulSet_selector_eq_template_labels_witness :
    newStatefulSetForDseDatacenter demoApi "rack1" demoDc 3 = .ok demoStatefulSet ∧
      (demoStatefulSet.Spec.Selector
          = some { MatchLabels := demoStatefulSet.Spec.Template.ObjectMeta.Labels } ∧
        demoStatefulSet.Spec.Template.ObjectMeta.Labels
          = GetRackLabels demoApi demoDc "rack1" ∧
        (∀ sel, demoStatefulSet.Spec.Selector = some sel →
          LabelMap.Same sel.MatchLabels demoStatefulSet.Spec.Template.ObjectMeta.Labels)) :=
  ⟨rfl,
    statefulSet_selector_eq_template_labels demoApi "rack1" demoDc 3 demoStatefulSet rfl⟩

/-- C2: with pairwise different label keys, every key/value pair of the
selector of the cluster service, of the selector of the seed service and of
the match labels of the disruption budget (built from any statefulset) is a
key/value pair of the pod template labels of the statefulset built for the
rack. -/
theorem selectors_select_rack_pods (P : Datastaxv1alpha1) (hK : P.KeysDistinct)
    (rackName : String) (dc : DseDatacenter) (replicaCount : Int) (sts : StatefulSet)
    (h : newStatefulSetForDseDatacenter P rackName dc replicaCount = .ok sts) :
    LabelMap.Sub (newServiceForDseDatacenter P dc).Spec.Selector
        sts.Spec.Template.ObjectMeta.Labels ∧
      LabelMap.Sub (newSeedServiceForDseDatacenter P dc).Spec.Selector
        sts.Spec.Template.ObjectMeta.Labels ∧
      (∀ s : StatefulSet, ∃ sel,
        (newPodDisruptionBudgetForStatefulSet P dc s).Spec.Selector = some sel ∧
          LabelMap.Sub sel.MatchLabels sts.Spec.Template.ObjectMeta.Labels) := by
  obtain ⟨_, h₂, _⟩ := newStatefulSet_labels P rackName dc replicaCount sts h
  rw [h₂]
  have hdr := datacenter_sub_rack P hK dc rackName
  exact ⟨hdr, (cluster_sub_datacenter P hK dc).trans hdr, fun _ => ⟨_, rfl, hdr⟩⟩

/-- C2 at rack `rack1` of datacenter `dc1` of cluster `demo`, 3 replicas. -/
theorem selectors_select_rack_pods_witness :
    demoApi.KeysDistinct ∧
      newStatefulSetForDseDatacenter demoApi "rack1" demoDc 3 = .ok demoStatefulSet ∧
      (LabelMap.Sub (newServiceForDseDatacenter demoApi demoDc).Spec.Selector
          demoStatefulSet.Spec.Template.ObjectMeta.Labels ∧
        LabelMap.Sub (newSeedServiceForDseDatacenter demoApi demoDc).Spec.Selector
          demoStatefulSet.Spec.Template.ObjectMeta.Labels ∧
        (∀ s : StatefulSet, ∃ sel,
          (newPodDisruptionBudgetForStatefulSet demoApi demoDc s).Spec.Selector = some sel ∧
            LabelMap.Sub sel.MatchLabels demoStatefulSet.Spec.Template.ObjectMeta.Labels)) :=
  ⟨by decide, rfl,
    selectors_select_rack_pods demoApi (by decide) "rack1" demoDc 3 demoStatefulSet rfl⟩

/-- C3, refuted as stated: for datacenter `dc1` of cluster `demo` the selector
of the seed service has no datacenter label while the selector of the cluster
service binds it to `dc1`, so the two selectors are not the same map and the
seed selector is not the datacenter-scope labels. -/
theorem seed_selector_ne_service_selector :
    (newSeedServiceForDseDatacenter demoApi demoDc).Spec.Selector = [("cluster", "demo")] ∧
      (newServiceForDseDatacenter demoApi demoDc).Spec.Selector
        = [("datacenter", "dc1"), ("cluster", "demo")] ∧
      ¬ LabelMap.Same (newSeedServiceForDseDatacenter demoApi demoDc).Spec.Selector
          (newServiceForDseDatacenter demoApi demoDc).Spec.Selector ∧
      ¬ LabelMap.Same (newSeedServiceForDseDatacenter demoApi demoDc).Spec.Selector
          (GetDatacenterLabels demoApi demoDc) := by
  refine ⟨by decide, by decide, ?_, ?_⟩ <;>
  · intro hsame
    have hk := hsame "datacenter"
    revert hk
    decide

/-- C3, amended: the selector of the seed service is the cluster-scope labels
and the selector of the cluster service is the datacenter-scope labels; with
pairwise different label keys the seed selector is a key/value subset of the
cluster service selector without being the same map, and neither selector is
the rack-scope labels of any rack. -/
theorem seed_selector_cluster_scope (P : Datastaxv1alpha1) (hK : P.KeysDistinct)
    (dc : DseDatacenter) :
    (newSeedServiceForDseDatacenter P dc).Spec.Selector = GetClusterLabels P dc ∧
      (newServiceForDseDatacenter P dc).Spec.Selector = GetDatacenterLabels P dc ∧
      LabelMap.Sub (newSeedServiceForDseDatacenter P dc).Spec.Selector
        (newServiceForDseDatacenter P dc).Spec.Selector ∧
      ¬ LabelMap.Same (newSeedServiceForDseDatacenter P dc).Spec.Selector
          (newServiceForDseDatacenter P dc).Spec.Selector ∧
      (∀ rackName,
        ¬ LabelMap.Same (newSeedServiceForDseDatacenter P dc).Spec.Selector
            (GetRackLabels P dc rackName) ∧
        ¬ LabelMap.Same (newServiceForDseDatacenter P dc).Spec.Selector
            (GetRackLabels P dc rackName)) := by
  have hs : (newSeedServiceForDseDatacenter P dc).Spec.Selector = GetClusterLabels P dc := rfl
  have hv : (newServiceForDseDatacenter P dc).Spec.Selector = GetDatacenterLabels P dc := rfl
  obtain ⟨hcd, hcr, hdr⟩ := hK
  rw [hs, hv]
  refine ⟨rfl, rfl, cluster_sub_datacenter P ⟨hcd, hcr, hdr⟩ dc, ?_, ?_⟩
  · intro hsame
    have hk := hsame P.DATACENTER_LABEL
    rw [GetClusterLabels_get, GetDatacenterLabels_get] at hk
    simp [Ne.symm hcd] at hk
  · intro rackName
    constructor <;> intro hsame <;> have hk := hsame P.RACK_LABEL
    · rw [GetClusterLabels_get, GetRackLabels_get] at hk
      simp [Ne.symm hcr] at hk
    · rw [GetDatacenterLabels_get, GetRackLabels_get] at hk
      simp [Ne.symm hcr, Ne.symm hdr] at hk

/-- C3, amended, at datacenter `dc1` of cluster `demo`. -/
theorem seed_selector_cluster_scope_witness :
    demoApi.KeysDistinct ∧
      ((newSeedServiceForDseDatacenter demoApi demoDc).Spec.Selector
          = GetClusterLabels demoApi demoDc ∧
        (newServiceForDseDatacenter demoApi demoDc).Spec.Selector
          = GetDatacenterLabels demoApi demoDc ∧
        LabelMap.Sub (newSeedServiceForDseDatacenter demoApi demoDc).Spec.Selector
          (newServiceForDseDatacenter demoApi demoDc).Spec.Selector ∧
        ¬ LabelMap.Same (newSeedServiceForDseDatacenter demoApi demoDc).Spec.Selector
            (newServiceForDseDatacenter demoApi demoDc).Spec.Selector ∧
        (∀ rackName,
          ¬ LabelMap.Same (newSeedServiceForDseDatacenter demoApi demoDc).Spec.Selector
              (GetRackLabels demoApi demoDc rackName) ∧
          ¬ LabelMap.Same (newServiceForDseDatacenter demoApi demoDc).Spec.Selector
              (GetRackLabels demoApi demoDc rackName))) :=
  ⟨by decide, seed_selector_cluster_scope demoApi (by decide) demoDc⟩

/-! ## Storage and failure of the statefulset constructor -/

/-- C4: when the spec has no storage claim and its configuration serializes,
`newStatefulSetForDseDatacenter` returns a statefulset with no volume-claim
template whose single (main) container has the `dse-config` mount at `/config`
as its only mount, hence no mount at the data directory `/var/lib/cassandra`. -/
theorem no_storage_claim_no_data_volume (P : Datastaxv1alpha1) (rackName : String)
    (dc : DseDatacenter) (replicaCount : Int) (configData : String)
    (hs : dc.Spec.StorageClaim = none) (hc : P.GetConfigAsJSON dc = .ok configData) :
    ∃ sts c, newStatefulSetForDseDatacenter P rackName dc replicaCount = .ok sts ∧
      sts.Spec.VolumeClaimTemplates = [] ∧
      sts.Spec.Template.Spec.Containers = [c] ∧
      c.VolumeMounts = [{ Name := "dse-config", MountPath := "/config" }] ∧
      ∀ m ∈ c.VolumeMounts, m.MountPath ≠ "/var/lib/cassandra" := by
  unfold newStatefulSetForDseDatacenter
  simp only [hc, hs]
  refine ⟨_, _, rfl, rfl, rfl, rfl, ?_⟩
  intro m hm
  simp only [List.nil_append, List.mem_singleton] at hm
  subst hm
  decide

/-- C4 at rack `rack1` of datacenter `dc1` of cluster `demo`, 3 replicas. -/
theorem no_storage_claim_no_data_volume_witness :
    demoDc.Spec.StorageClaim = none ∧ demoApi.GetConfigAsJSON demoDc = .ok "{}" ∧
    ∃ sts c, newStatefulSetForDseDatacenter demoApi "rack1" demoDc 3 = .ok sts ∧
      sts.Spec.VolumeClaimTemplates = [] ∧
      sts.Spec.Template.Spec.Containers = [c] ∧
      c.VolumeMounts = [{ Name := "dse-config", MountPath := "/config" }] ∧
      ∀ m ∈ c.VolumeMounts, m.MountPath ≠ "/var/lib/cassandra" :=
  ⟨rfl, rfl, no_storage_claim_no_data_volume demoApi "rack1" demoDc 3 "{}" rfl rfl⟩

/-- C5, refuted as stated: the storage claim of `demoDcStorage` has access mode
`ReadWriteMany`, and the one volume-claim template of the statefulset built
from it has access modes `[ReadWriteOnce]`, not the access mode of the claim. -/
theorem claim_template_access_mode_fixed :
    demoDcStorage.Spec.StorageClaim = some demoClaim ∧
      demoClaim.AccessMode = PersistentVolumeAccessMode.ReadWriteMany ∧
      newStatefulSetForDseDatacenter demoApi "rack1" demoDcStorage 3
        = .ok demoStatefulSetStorage ∧
      demoStatefulSetStorage.Spec.VolumeClaimTemplates.map (fun t => t.Spec.AccessModes)
        = [[PersistentVolumeAccessMode.ReadWriteOnce]] ∧
      ¬ ∃ t, demoStatefulSetStorage.Spec.VolumeClaimTemplates = [t] ∧
          t.Spec.AccessModes = [demoClaim.AccessMode] := by
  refine ⟨rfl, rfl, rfl, by decide, ?_⟩
  rintro ⟨t, ht, hm⟩
  have ht2 : demoStatefulSetStorage.Spec.VolumeClaimTemplates.map (fun t => t.Spec.AccessModes)
      = [[PersistentVolumeAccessMode.ReadWriteOnce]] := by decide
  rw [ht] at ht2
  simp only [List.map_cons, List.map_nil, hm] at ht2
  revert ht2
  decide

/-- C5, amended: when the spec has a storage claim and its configuration
serializes, `newStatefulSetForDseDatacenter` returns a statefulset with exactly
one volume-claim template, named `dse-data`, whose access modes are the fixed
list `[ReadWriteOnce]` and whose resources and storage class name are those of
the storage claim; the single (main) container mounts `dse-config` at `/config`
and the volume of the template at the data directory `/var/lib/cassandra`. -/
theorem storage_claim_template (P : Datastaxv1alpha1) (rackName : String)
    (dc : DseDatacenter) (replicaCount : Int) (configData : String)
    (storageClaim : DseStorageClaim)
    (hs : dc.Spec.StorageClaim = some storageClaim)
    (hc : P.GetConfigAsJSON dc = .ok configData) :
    ∃ sts t c, newStatefulSetForDseDatacenter P rackName dc replicaCount = .ok sts ∧
      sts.Spec.VolumeClaimTemplates = [t] ∧
      t.Spec.AccessModes = [PersistentVolumeAccessMode.ReadWriteOnce] ∧
      t.Spec.Resources = storageClaim.Resources ∧
      t.Spec.StorageClassName = some storageClaim.StorageClassName ∧
      t.ObjectMeta.Name = "dse-data" ∧
      sts.Spec.Template.Spec.Containers = [c] ∧
      c.VolumeMounts = [{ Name := "dse-config", MountPath := "/config" },
        { Name := t.ObjectMeta.Name, MountPath := "/var/lib/cassandra" }] := by
  unfold newStatefulSetForDseDatacenter
  simp only [hc, hs]
  exact ⟨_, _, _, rfl, rfl, rfl, rfl, rfl, rfl, rfl, rfl⟩

/-- C5, amended, at datacenter `dc1` of cluster `demo` with a storage claim of
class `standard`. -/
theorem storage_claim_template_witness :
    demoDcStorage.Spec.StorageClaim = some demoClaim ∧
      demoApi.GetConfigAsJSON demoDcStorage = .ok "{}" ∧
      ∃ sts t c, newStatefulSetForDseDatacenter demoApi "rack1" demoDcStorage 3 = .ok sts ∧
        sts.Spec.VolumeClaimTemplates = [t] ∧
        t.Spec.AccessModes = [PersistentVolumeAccessMode.ReadWriteOnce] ∧
        t.Spec.Resources = demoClaim.Resources ∧
        t.Spec.StorageClassName = some demoClaim.StorageClassName ∧
        t.ObjectMeta.Name = "dse-data" ∧
        sts.Spec.Template.Spec.Containers = [c] ∧
        c.VolumeMounts = [{ Name := "dse-config", MountPath := "/config" },
          { Name := t.ObjectMeta.Name, MountPath := "/var/lib/cassandra" }] :=
  ⟨rfl, rfl, storage_claim_template demoApi "rack1" demoDcStorage 3 "{}" demoClaim rfl rfl⟩

/-- C6: `newStatefulSetForDseDatacenter` returns the error `err` (and no
statefulset) exactly when `GetConfigAsJSON` fails with `err`, and returns a
statefulset (with a nil error) exactly when `GetConfigAsJSON` succeeds. -/
theorem newStatefulSet_error_iff (P : Datastaxv1alpha1) (rackName : String)
    (dc : DseDatacenter) (replicaCount : Int) :
    (∀ err, newStatefulSetForDseDatacenter P rackName dc replicaCount = .error err ↔
      P.GetConfigAsJSON dc = .error err) ∧
    ((∃ sts, newStatefulSetForDseDatacenter P rackName dc replicaCount = .ok sts) ↔
      ∃ configData, P.GetConfigAsJSON dc = .ok configData) := by
  unfold newStatefulSetForDseDatacenter
  cases hc : P.GetConfigAsJSON dc with
  | error e => simp
  | ok configData => simp

/-- C6 on a failing configuration accessor: the statefulset constructor returns
the serialization error itself. -/
theorem newStatefulSet_error_iff_witness :
    failingApi.GetConfigAsJSON demoDc = .error "json: unsupported value" ∧
      newStatefulSetForDseDatacenter failingApi "rack1" demoDc 3
        = .error "json: unsupported value" :=
  ⟨rfl, ((newStatefulSet_error_iff failingApi "rack1" demoDc 3).1
    "json: unsupported value").2 rfl⟩

/-! ## The progress label -/

/-- C7, refuted as stated: starting from a spec whose label map already holds
the progress label `Ready`, two calls with the status `Ready` both return
success and the write-counting stub still counts 0 `Update` calls, not 1. -/
theorem twice_no_update_when_label_held :
    progressLabel demoApi readyDc = some ready ∧
      (addOperatorProgressLabelTwice demoApi countingClient
          { DseDatacenter := readyDc, Client := 0 } ready).1.2 = none ∧
      (addOperatorProgressLabelTwice demoApi countingClient
          { DseDatacenter := readyDc, Client := 0 } ready).2.2 = none ∧
      (addOperatorProgressLabelTwice demoApi countingClient
          { DseDatacenter := readyDc, Client := 0 } ready).2.1.Client = 0 ∧
      (addOperatorProgressLabelTwice demoApi countingClient
          { DseDatacenter := readyDc, Client := 0 } ready).2.1.Client ≠ 0 + 1 := by
  decide

/-- C7, amended: of two calls in a row with the same status, the second
returns success and leaves the context of the first, client state included,
untouched (no `Update`); in total the client has seen exactly one `Update`
when the progress label did not hold the status at the start, and none when it
did. -/
theorem addOperatorProgressLabel_twice {σ : Type} (P : Datastaxv1alpha1)
    (C : Client σ) (rc : ReconciliationContext σ) (status : dseOperatorStatus) :
    (addOperatorProgressLabelTwice P C rc status).2
        = ((addOperatorProgressLabelTwice P C rc status).1.1, none) ∧
      (progressLabel P rc.DseDatacenter ≠ some status →
        (addOperatorProgressLabelTwice P C rc status).2.1.Client
          = (C.Update rc.Client (withProgressLabel P rc.DseDatacenter status)).1) ∧
      (progressLabel P rc.DseDatacenter = some status →
        (addOperatorProgressLabelTwice P C rc status).2.1.Client = rc.Client) := by
  have hsecond : (addOperatorProgressLabelTwice P C rc status).2
      = ((addOperatorProgressLabelTwice P C rc status).1.1, none) := by
    unfold addOperatorProgressLabelTwice
    apply addOperatorProgressLabel_of_held
    by_cases h : progressLabel P rc.DseDatacenter = some status
    · rw [addOperatorProgressLabel_of_held P C rc status h]; exact h
    · rw [(addOperatorProgressLabel_of_not_held P C rc status h).1]
      exact progressLabel_withProgressLabel P _ status
  refine ⟨hsecond, fun h => ?_, fun h => ?_⟩
  · rw [hsecond]
    exact (addOperatorProgressLabel_of_not_held P C rc status h).2.1
  · rw [hsecond]
    show (addOperatorProgressLabel P C rc status).1.Client = rc.Client
    rw [addOperatorProgressLabel_of_held P C rc status h]

/-- C7, amended, on the write-counting stub: from a spec without the progress
label the count after two calls is 1, for `Updating` and for `Ready`; from a
spec already holding `Ready` it is 0. -/
theorem addOperatorProgressLabel_twice_witness :
    (progressLabel demoApi demoDc ≠ some updating ∧
      (addOperatorProgressLabelTwice demoApi countingClient
          { DseDatacenter := demoDc, Client := 0 } updating).2.1.Client = 1) ∧
    (progressLabel demoApi demoDc ≠ some ready ∧
      (addOperatorProgressLabelTwice demoApi countingClient
          { DseDatacenter := demoDc, Client := 0 } ready).2.1.Client = 1) ∧
    (progressLabel demoApi readyDc = some ready ∧
      (addOperatorProgressLabelTwice demoApi countingClient
          { DseDatacenter := readyDc, Client := 0 } ready).2.1.Client = 0) :=
  ⟨⟨by decide,
      (addOperatorProgressLabel_twice demoApi countingClient
        { DseDatacenter := demoDc, Client := 0 } updating).2.1 (by decide)⟩,
    ⟨by decide,
      (addOperatorProgressLabel_twice demoApi countingClient
        { DseDatacenter := demoDc, Client := 0 } ready).2.1 (by decide)⟩,
    ⟨by decide,
      (addOperatorProgressLabel_twice demoApi countingClient
        { DseDatacenter := readyDc, Client := 0 } ready).2.2 (by decide)⟩⟩

/-- C8: a single call of `addOperatorProgressLabel`. If the label map holds the
progress label with the requested status, the call returns success and the
context (label map, client state) is unchanged. Otherwise the datacenter
object gets the progress label set to the status with every other label
unchanged, the client state is that after one `Update` on this object, and the
returned error is the answer of that `Update`. -/
theorem addOperatorProgressLabel_single_call {σ : Type} (P : Datastaxv1alpha1)
    (C : Client σ) (rc : ReconciliationContext σ) (status : dseOperatorStatus) :
    (progressLabel P rc.DseDatacenter = some status →
      addOperatorProgressLabel P C rc status = (rc, none)) ∧
    (progressLabel P rc.DseDatacenter ≠ some status →
      (addOperatorProgressLabel P C rc status).1.DseDatacenter
          = withProgressLabel P rc.DseDatacenter status ∧
        progressLabel P (addOperatorProgressLabel P C rc status).1.DseDatacenter
          = some status ∧
        (∀ k, k ≠ P.DseOperatorProgressLabel →
          ((addOperatorProgressLabel P C rc status).1.DseDatacenter.Spec.Labels.getD []).get k
            = (rc.DseDatacenter.Spec.Labels.getD []).get k) ∧
        (addOperatorProgressLabel P C rc status).1.Client
          = (C.Update rc.Client (withProgressLabel P rc.DseDatacenter status)).1 ∧
        (addOperatorProgressLabel P C rc status).2
          = (C.Update rc.Client (withProgressLabel P rc.DseDatacenter status)).2) := by
  refine ⟨addOperatorProgressLabel_of_held P C rc status, fun h => ?_⟩
  obtain ⟨h₁, h₂, h₃, _⟩ := addOperatorProgressLabel_of_not_held P C rc status h
  refine ⟨h₁, ?_, ?_, h₂, h₃⟩
  · rw [h₁]; exact progressLabel_withProgressLabel P _ status
  · intro k hk
    rw [h₁]; exact withProgressLabel_other_labels P _ status k hk

/-- C8 on stubs: a spec holding `Ready` asked for `Ready` is left alone with
the count at 0; a spec without labels asked for `Updating` against a failing
stub counts one `Update` and returns its error. -/
theorem addOperatorProgressLabel_single_call_witness :
    (progressLabel demoApi readyDc = some ready ∧
      addOperatorProgressLabel demoApi countingClient
          { DseDatacenter := readyDc, Client := 0 } ready
        = ({ DseDatacenter := readyDc, Client := 0 }, none)) ∧
    (progressLabel demoApi demoDc ≠ some updating ∧
      (addOperatorProgressLabel demoApi failingClient
          { DseDatacenter := demoDc, Client := 0 } updating).1.Client = 1 ∧
      (addOperatorProgressLabel demoApi failingClient
          { DseDatacenter := demoDc, Client := 0 } updating).2 = some "conflict") :=
  ⟨⟨by decide,
      (addOperatorProgressLabel_single_call demoApi countingClient
        { DseDatacenter := readyDc, Client := 0 } ready).1 (by decide)⟩,
    by decide,
    ((addOperatorProgressLabel_single_call demoApi failingClient
        { DseDatacenter := demoDc, Client := 0 } updating).2 (by decide)).2.2.2.1,
    ((addOperatorProgressLabel_single_call demoApi failingClient
        { DseDatacenter := demoDc, Client := 0 } updating).2 (by decide)).2.2.2.2⟩

/-! ## The disruption budget -/

/-- C9: for every statefulset passed in, the disruption budget has as selector
match labels the datacenter-scope labels, which (label keys being pairwise
different) are not the rack-scope labels of any rack and are the same whatever
statefulset is passed; its `MaxUnavailable` is the integer 1, its name is the
name of the statefulset followed by `-pdb`, in the namespace of the
statefulset. -/
theorem disruption_budget_datacenter_scope (P : Datastaxv1alpha1) (hK : P.KeysDistinct)
    (dc : DseDatacenter) (statefulSet : StatefulSet) :
    (newPodDisruptionBudgetForStatefulSet P dc statefulSet).Spec.Selector
        = some { MatchLabels := GetDatacenterLabels P dc } ∧
      (∀ rackName, ¬ LabelMap.Same (GetDatacenterLabels P dc) (GetRackLabels P dc rackName)) ∧
      (∀ other : StatefulSet,
        (newPodDisruptionBudgetForStatefulSet P dc other).Spec.Selector
          = (newPodDisruptionBudgetForStatefulSet P dc statefulSet).Spec.Selector) ∧
      (newPodDisruptionBudgetForStatefulSet P dc statefulSet).Spec.MaxUnavailable
        = some (.int 1) ∧
      (newPodDisruptionBudgetForStatefulSet P dc statefulSet).ObjectMeta.Name
        = statefulSet.ObjectMeta.Name ++ "-pdb" ∧
      (newPodDisruptionBudgetForStatefulSet P dc statefulSet).ObjectMeta.Namespace
        = statefulSet.ObjectMeta.Namespace := by
  refine ⟨rfl, ?_, fun _ => rfl, ?_, rfl, rfl⟩
  · intro rackName hsame
    have hk := hsame P.RACK_LABEL
    rw [GetDatacenterLabels_get, GetRackLabels_get] at hk
    simp [Ne.symm hK.2.1, Ne.symm hK.2.2] at hk
  · show some (IntOrString.FromInt 1) = some (.int 1)
    rw [FromInt_1]

/-- C9 at the statefulset of rack `rack1` of datacenter `dc1` of cluster `demo`. -/
theorem disruption_budget_datacenter_scope_witness :
    demoApi.KeysDistinct ∧
      ((newPodDisruptionBudgetForStatefulSet demoApi demoDc demoStatefulSet).Spec.Selector
          = some { MatchLabels := GetDatacenterLabels demoApi demoDc } ∧
        (∀ rackName,
          ¬ LabelMap.Same (GetDatacenterLabels demoApi demoDc)
              (GetRackLabels demoApi demoDc rackName)) ∧
        (∀ other : StatefulSet,
          (newPodDisruptionBudgetForStatefulSet demoApi demoDc other).Spec.Selector
            = (newPodDisruptionBudgetForStatefulSet demoApi demoDc demoStatefulSet).Spec.Selector) ∧
        (newPodDisruptionBudgetForStatefulSet demoApi demoDc demoStatefulSet).Spec.MaxUnavailable
          = some (.int 1) ∧
        (newPodDisruptionBudgetForStatefulSet demoApi demoDc demoStatefulSet).ObjectMeta.Name
          = demoStatefulSet.ObjectMeta.Name ++ "-pdb" ∧
        (newPodDisruptionBudgetForStatefulSet demoApi demoDc demoStatefulSet).ObjectMeta.Namespace
          = demoStatefulSet.ObjectMeta.Namespace) :=
  ⟨by decide, disruption_budget_datacenter_scope demoApi (by decide) demoDc demoStatefulSet⟩

/-! ## The main container -/

/-- C10: whenever `newStatefulSetForDseDatacenter` succeeds, the pod template
has exactly one container, `dse`, with container ports 9042, 8609, 7000, 7001
and 8080, a liveness probe HTTP GET on port 8080 at `/api/v0/probes/liveness`
with initial delay 15 and period 15, and a readiness probe HTTP GET on port
8080 at `/api/v0/probes/readiness` with initial delay 20 and period 10, so the
readiness probe starts strictly later than the liveness probe. -/
theorem main_container_ports_and_probes (P : Datastaxv1alpha1) (rackName : String)
    (dc : DseDatacenter) (replicaCount : Int) (sts : StatefulSet)
    (h : newStatefulSetForDseDatacenter P rackName dc replicaCount = .ok sts) :
    ∃ c, sts.Spec.Template.Spec.Containers = [c] ∧
      c.Name = "dse" ∧
      c.Ports.map (fun p => p.ContainerPort) = [9042, 8609, 7000, 7001, 8080] ∧
      c.LivenessProbe = some {
        Handler := { HTTPGet := some { Port := .int 8080, Path := "/api/v0/probes/liveness" } }
        InitialDelaySeconds := 15
        PeriodSeconds := 15 } ∧
      c.ReadinessProbe = some {
        Handler := { HTTPGet := some { Port := .int 8080, Path := "/api/v0/probes/readiness" } }
        InitialDelaySeconds := 20
        PeriodSeconds := 10 } ∧
      (∀ l r, c.LivenessProbe = some l → c.ReadinessProbe = some r →
        l.InitialDelaySeconds < r.InitialDelaySeconds) := by
  unfold newStatefulSetForDseDatacenter at h
  cases hc : P.GetConfigAsJSON dc with
  | error e => simp [hc] at h
  | ok configData =>
    simp only [hc] at h
    cases hs : dc.Spec.StorageClaim <;> simp only [hs, Except.ok.injEq] at h <;>
      subst h <;>
      · refine ⟨_, rfl, rfl, rfl, ?_, ?_, ?_⟩
        · simp only [FromInt_8080]
        · simp only [FromInt_8080]
        · intro l r hl hr
          simp only [Option.some.injEq] at hl hr
          subst hl hr
          decide

/-- C10 at cluster `demo`, datacenter `dc1`, rack `rack1`, replica count 3,
whose statefulset is named `demo-dc1-rack1-sts`. -/
theorem main_container_ports_and_probes_witness :
    newStatefulSetForDseDatacenter demoApi "rack1" demoDc 3 = .ok demoStatefulSet ∧
      demoStatefulSet.ObjectMeta.Name = "demo-dc1-rack1-sts" ∧
      ∃ c, demoStatefulSet.Spec.Template.Spec.Containers = [c] ∧
      c.Name = "dse" ∧
      c.Ports.map (fun p => p.ContainerPort) = [9042, 8609, 7000, 7001, 8080] ∧
      c.LivenessProbe = some {
        Handler := { HTTPGet := some { Port := .int 8080, Path := "/api/v0/probes/liveness" } }
        InitialDelaySeconds := 15
        PeriodSeconds := 15 } ∧
      c.ReadinessProbe = some {
        Handler := { HTTPGet := some { Port := .int 8080, Path := "/api/v0/probes/readiness" } }
        InitialDelaySeconds := 20
        PeriodSeconds := 10 } ∧
      (∀ l r, c.LivenessProbe = some l → c.ReadinessProbe = some r →
        l.InitialDelaySeconds < r.InitialDelaySeconds) :=
  ⟨rfl, by decide,
    main_container_ports_and_probes demoApi "rack1" demoDc 3 demoStatefulSet rfl⟩

/-! ## Object names and ports -/

/-- C11, refuted as stated: for datacenter `dc1` of cluster `demo` the seed
service is named `demo-seed-service`, which does not start with `demo-dc1-`. -/
theorem seed_service_name_without_datacenter :
    (newSeedServiceForDseDatacenter demoApi demoDc).ObjectMeta.Name = "demo-seed-service" ∧
      ¬ StartsWith (newSeedServiceForDseDatacenter demoApi demoDc).ObjectMeta.Name
          (demoDc.Spec.ClusterName ++ "-" ++ demoDc.Name ++ "-") := by
  refine ⟨by decide, ?_⟩
  rintro ⟨rest, h⟩
  have hd := congrArg String.data h
  revert hd
  simp [String.data_append, newSeedServiceForDseDatacenter, demoDc]

/-- C11, amended: the cluster service is named cluster, `-`, datacenter, `-`,
`service`; the statefulset of a rack cluster, `-`, datacenter, `-`, rack, `-`,
`sts`; the disruption budget built from that statefulset the same with
`sts-pdb`; the seed service cluster, `-`, `seed-service`, without the
datacenter name. So the first three start with cluster, `-`, datacenter, `-`,
the two per-rack objects continue with rack, `-`, and each of the four names
ends with its fixed suffix. -/
theorem object_names_pattern (P : Datastaxv1alpha1) (rackName : String)
    (dc : DseDatacenter) (replicaCount : Int) (sts : StatefulSet)
    (h : newStatefulSetForDseDatacenter P rackName dc replicaCount = .ok sts) :
    (newServiceForDseDatacenter P dc).ObjectMeta.Name
        = dc.Spec.ClusterName ++ "-" ++ dc.Name ++ "-" ++ "service" ∧
      sts.ObjectMeta.Name
        = dc.Spec.ClusterName ++ "-" ++ dc.Name ++ "-" ++ (rackName ++ "-" ++ "sts") ∧
      (newPodDisruptionBudgetForStatefulSet P dc sts).ObjectMeta.Name
        = dc.Spec.ClusterName ++ "-" ++ dc.Name ++ "-" ++ (rackName ++ "-" ++ "sts-pdb") ∧
      (newSeedServiceForDseDatacenter P dc).ObjectMeta.Name
        = dc.Spec.ClusterName ++ "-" ++ "seed-service" ∧
      StartsWith (newServiceForDseDatacenter P dc).ObjectMeta.Name
        (dc.Spec.ClusterName ++ "-" ++ dc.Name ++ "-") ∧
      StartsWith sts.ObjectMeta.Name
        (dc.Spec.ClusterName ++ "-" ++ dc.Name ++ "-" ++ rackName ++ "-") ∧
      StartsWith (newPodDisruptionBudgetForStatefulSet P dc sts).ObjectMeta.Name
        (dc.Spec.ClusterName ++ "-" ++ dc.Name ++ "-" ++ rackName ++ "-") ∧
      EndsWith (newServiceForDseDatacenter P dc).ObjectMeta.Name "-service" ∧
      EndsWith (newSeedServiceForDseDatacenter P dc).ObjectMeta.Name "-seed-service" ∧
      EndsWith sts.ObjectMeta.Name "-sts" ∧
      EndsWith (newPodDisruptionBudgetForStatefulSet P dc sts).ObjectMeta.Name "-sts-pdb" := by
  obtain ⟨hn, _, _⟩ := newStatefulSet_names P rackName dc replicaCount sts h
  have hpdb : (newPodDisruptionBudgetForStatefulSet P dc sts).ObjectMeta.Name
      = sts.ObjectMeta.Name ++ "-pdb" := rfl
  have hsvc : (newServiceForDseDatacenter P dc).ObjectMeta.Name
      = dc.Spec.ClusterName ++ "-" ++ dc.Name ++ "-service" := rfl
  have hseed : (newSeedServiceForDseDatacenter P dc).ObjectMeta.Name
      = dc.Spec.ClusterName ++ "-seed-service" := rfl
  have e₁ : "-service" = "-" ++ "service" := by decide
  have e₂ : "-sts" = "-" ++ "sts" := by decide
  have e₃ : "-seed-service" = "-" ++ "seed-service" := by decide
  have e₄ : "sts" ++ "-pdb" = "sts-pdb" := by decide
  have e₅ : "-sts" ++ "-pdb" = "-sts-pdb" := by decide
  rw [hpdb, hsvc, hseed, hn]
  unfold StartsWith EndsWith
  refine ⟨?_, ?_, ?_, ?_, ⟨"service", ?_⟩, ⟨"sts", ?_⟩, ⟨"sts-pdb", ?_⟩,
    ⟨dc.Spec.ClusterName ++ "-" ++ dc.Name, rfl⟩, ⟨dc.Spec.ClusterName, rfl⟩,
    ⟨dc.Spec.ClusterName ++ "-" ++ dc.Name ++ "-" ++ rackName, rfl⟩,
    ⟨dc.Spec.ClusterName ++ "-" ++ dc.Name ++ "-" ++ rackName, ?_⟩⟩
  · rw [e₁]; simp only [String.append_assoc]
  · rw [e₂]; simp only [String.append_assoc]
  · rw [e₂]; simp only [String.append_assoc]; rw [e₄]
  · rw [e₃]; simp only [String.append_assoc]
  · rw [e₁]; simp only [String.append_assoc]
  · rw [e₂]; simp only [String.append_assoc]
  · rw [e₂]; simp only [String.append_assoc]; rw [e₄]
  · rw [String.append_assoc _ "-sts" "-pdb", e₅]

/-- C11, amended, at cluster `demo`, datacenter `dc1`, rack `rack1`. -/
theorem object_names_pattern_witness :
    newStatefulSetForDseDatacenter demoApi "rack1" demoDc 3 = .ok demoStatefulSet ∧
      (newServiceForDseDatacenter demoApi demoDc).ObjectMeta.Name = "demo-dc1-service" ∧
      demoStatefulSet.ObjectMeta.Name = "demo-dc1-rack1-sts" ∧
      (newPodDisruptionBudgetForStatefulSet demoApi demoDc demoStatefulSet).ObjectMeta.Name
        = "demo-dc1-rack1-sts-pdb" ∧
      (newSeedServiceForDseDatacenter demoApi demoDc).ObjectMeta.Name = "demo-seed-service" ∧
      StartsWith demoStatefulSet.ObjectMeta.Name
        (demoDc.Spec.ClusterName ++ "-" ++ demoDc.Name ++ "-" ++ "rack1" ++ "-") :=
  ⟨rfl, by decide, by decide, by decide, by decide,
    (object_names_pattern demoApi "rack1" demoDc 3 demoStatefulSet rfl).2.2.2.2.2.1⟩

/-- C12, refuted as stated: for rack `rack1` of datacenter `dc1` of cluster
`demo` the main container has five ports, the last named `mgmt-api-http`, and
the cluster service has six, the fifth named `mgmt-api` and the sixth
`prometheus` 9103; the two lists of (name, number) pairs differ. -/
theorem container_ports_ne_service_ports :
    newStatefulSetForDseDatacenter demoApi "rack1" demoDc 3 = .ok demoStatefulSet ∧
      demoStatefulSet.Spec.Template.Spec.Containers.map
          (fun c => c.Ports.map (fun p => (p.Name, p.ContainerPort)))
        = [[("native", 9042), ("inter-node-msg", 8609), ("intra-node", 7000),
            ("tls-intra-node", 7001), ("mgmt-api-http", 8080)]] ∧
      (newServiceForDseDatacenter demoApi demoDc).Spec.Ports.map (fun p => (p.Name, p.Port))
        = [("native", 9042), ("inter-node-msg", 8609), ("intra-node", 7000),
            ("tls-intra-node", 7001), ("mgmt-api", 8080), ("prometheus", 9103)] ∧
      ¬ ∃ c, demoStatefulSet.Spec.Template.Spec.Containers = [c] ∧
          c.Ports.map (fun p => (p.Name, p.ContainerPort))
            = (newServiceForDseDatacenter demoApi demoDc).Spec.Ports.map
                (fun p => (p.Name, p.Port)) := by
  refine ⟨rfl, by decide, by decide, ?_⟩
  rintro ⟨c, hc, hp⟩
  have hl := congrArg List.length hp
  have hc2 : demoStatefulSet.Spec.Template.Spec.Containers.map (fun c => c.Ports.length)
      = [5] := by decide
  rw [hc] at hc2
  simp only [List.map_cons, List.map_nil, List.cons.injEq, and_true] at hc2
  simp only [List.length_map] at hl
  rw [hc2] at hl
  revert hl
  decide

/-- C12, amended: whenever `newStatefulSetForDseDatacenter` succeeds, the port
numbers of the single (main) container are the first five port numbers of the
cluster service, in the same order; the first four entries also carry the same
names, the port 8080 is named `mgmt-api-http` in the container and `mgmt-api`
in the service, and the sixth service port `prometheus` 9103 is not among the
container ports. -/
theorem container_ports_within_service_ports (P : Datastaxv1alpha1) (rackName : String)
    (dc : DseDatacenter) (replicaCount : Int) (sts : StatefulSet)
    (h : newStatefulSetForDseDatacenter P rackName dc replicaCount = .ok sts) :
    ∃ c, sts.Spec.Template.Spec.Containers = [c] ∧
      c.Ports.map (fun p => p.ContainerPort)
        = ((newServiceForDseDatacenter P dc).Spec.Ports.map (fun p => p.Port)).take 5 ∧
      (c.Ports.map (fun p => (p.Name, p.ContainerPort))).take 4
        = ((newServiceForDseDatacenter P dc).Spec.Ports.map (fun p => (p.Name, p.Port))).take 4 ∧
      c.Ports.map (fun p => (p.Name, p.ContainerPort))
        = [("native", 9042), ("inter-node-msg", 8609), ("intra-node", 7000),
            ("tls-intra-node", 7001), ("mgmt-api-http", 8080)] ∧
      (newServiceForDseDatacenter P dc).Spec.Ports.map (fun p => (p.Name, p.Port))
        = [("native", 9042), ("inter-node-msg", 8609), ("intra-node", 7000),
            ("tls-intra-node", 7001), ("mgmt-api", 8080), ("prometheus", 9103)] := by
  unfold newStatefulSetForDseDatacenter at h
  cases hc : P.GetConfigAsJSON dc with
  | error e => simp [hc] at h
  | ok configData =>
    simp only [hc] at h
    cases hs : dc.Spec.StorageClaim <;> simp only [hs, Except.ok.injEq] at h <;>
      subst h <;> exact ⟨_, rfl, rfl, rfl, rfl, rfl⟩

/-- C12, amended, at rack `rack1` of datacenter `dc1` of cluster `demo`. -/
theorem container_ports_within_service_ports_witness :
    newStatefulSetForDseDatacenter demoApi "rack1" demoDc 3 = .ok demoStatefulSet ∧
      ∃ c, demoStatefulSet.Spec.Template.Spec.Containers = [c] ∧
        c.Ports.map (fun p => p.ContainerPort)
          = ((newServiceForDseDatacenter demoApi demoDc).Spec.Ports.map
              (fun p => p.Port)).take 5 ∧
        (c.Ports.map (fun p => (p.Name, p.ContainerPort))).take 4
          = ((newServiceForDseDatacenter demoApi demoDc).Spec.Ports.map
              (fun p => (p.Name, p.Port))).take 4 ∧
        c.Ports.map (fun p => (p.Name, p.ContainerPort))
          = [("native", 9042), ("inter-node-msg", 8609), ("intra-node", 7000),
              ("tls-intra-node", 7001), ("mgmt-api-http", 8080)] ∧
        (newServiceForDseDatacenter demoApi demoDc).Spec.Ports.map (fun p => (p.Name, p.Port))
          = [("native", 9042), ("inter-node-msg", 8609), ("intra-node", 7000),
              ("tls-intra-node", 7001), ("mgmt-api", 8080), ("prometheus", 9103)] :=
  ⟨rfl, container_ports_within_service_ports demoApi "rack1" demoDc 3 demoStatefulSet rfl⟩

/-! ## The two services -/

/-- C13: the cluster service is headless (`ClusterIP` is `None`, type
`ClusterIP`), its selector and its labels are the datacenter-scope labels, and
its ports are, in this order, native 9042, inter-node-msg 8609, intra-node
7000, tls-intra-node 7001, mgmt-api 8080, prometheus 9103, each with a target
port equal to its port number. -/
theorem cluster_service_shape (P : Datastaxv1alpha1) (dc : DseDatacenter) :
    (newServiceForDseDatacenter P dc).Spec.ClusterIP = "None" ∧
      (newServiceForDseDatacenter P dc).Spec.ServiceType = "ClusterIP" ∧
      (newServiceForDseDatacenter P dc).Spec.Selector = GetDatacenterLabels P dc ∧
      (newServiceForDseDatacenter P dc).ObjectMeta.Labels = GetDatacenterLabels P dc ∧
      (newServiceForDseDatacenter P dc).Spec.Ports
        = [{ Name := "native", Port := 9042, TargetPort := .int 9042 },
           { Name := "inter-node-msg", Port := 8609, TargetPort := .int 8609 },
           { Name := "intra-node", Port := 7000, TargetPort := .int 7000 },
           { Name := "tls-intra-node", Port := 7001, TargetPort := .int 7001 },
           { Name := "mgmt-api", Port := 8080, TargetPort := .int 8080 },
           { Name := "prometheus", Port := 9103, TargetPort := .int 9103 }] ∧
      (∀ p ∈ (newServiceForDseDatacenter P dc).Spec.Ports, p.TargetPort = .int p.Port) := by
  refine ⟨rfl, rfl, rfl, rfl, by simp [newServiceForDseDatacenter]; decide, ?_⟩
  intro p hp
  simp only [newServiceForDseDatacenter, List.mem_cons, List.mem_singleton,
    List.not_mem_nil, or_false] at hp
  rcases hp with rfl | rfl | rfl | rfl | rfl | rfl <;> decide

/-- C14: the seed service is headless (`ClusterIP` is `None`), declares no
ports and has `PublishNotReadyAddresses` set to true. -/
theorem seed_service_shape (P : Datastaxv1alpha1) (dc : DseDatacenter) :
    (newSeedServiceForDseDatacenter P dc).Spec.ClusterIP = "None" ∧
      (newSeedServiceForDseDatacenter P dc).Spec.Ports = [] ∧
      (newSeedServiceForDseDatacenter P dc).Spec.PublishNotReadyAddresses = true :=
  ⟨rfl, rfl, rfl⟩

/-! ## Placement -/

/-- C15: whenever `newStatefulSetForDseDatacenter` succeeds, the affinity of the
pod template is exactly: one preferred pod-affinity term of weight 100 on the
rack label with the rack name and the zone topology key, one preferred
pod-anti-affinity term of weight 90 on the datacenter label with the
datacenter name and the hostname topology key, and empty lists of required
terms for both. -/
theorem placement_soft_preferences (P : Datastaxv1alpha1) (rackName : String)
    (dc : DseDatacenter) (replicaCount : Int) (sts : StatefulSet)
    (h : newStatefulSetForDseDatacenter P rackName dc replicaCount = .ok sts) :
    sts.Spec.Template.Spec.Affinity = some {
      PodAffinity := some {
        RequiredDuringSchedulingIgnoredDuringExecution := []
        PreferredDuringSchedulingIgnoredDuringExecution := [{
          Weight := 100
          PodAffinityTerm := {
            LabelSelector := some { MatchLabels := [(P.RACK_LABEL, rackName)] }
            TopologyKey := "failure-domain.beta.kubernetes.io/zone" } }] }
      PodAntiAffinity := some {
        RequiredDuringSchedulingIgnoredDuringExecution := []
        PreferredDuringSchedulingIgnoredDuringExecution := [{
          Weight := 90
          PodAffinityTerm := {
            LabelSelector := some { MatchLabels := [(P.DATACENTER_LABEL, dc.Name)] }
            TopologyKey := "kubernetes.io/hostname" } }] } } := by
  unfold newStatefulSetForDseDatacenter at h
  cases hc : P.GetConfigAsJSON dc with
  | error e => simp [hc] at h
  | ok configData =>
    simp only [hc] at h
    cases hs : dc.Spec.StorageClaim <;> simp only [hs, Except.ok.injEq] at h <;>
      subst h <;> rfl

/-- C15 at rack `rack1` of datacenter `dc1` of cluster `demo`. -/
theorem placement_soft_preferences_witness :
    newStatefulSetForDseDatacenter demoApi "rack1" demoDc 3 = .ok demoStatefulSet ∧
      demoStatefulSet.Spec.Template.Spec.Affinity = some {
        PodAffinity := some {
          RequiredDuringSchedulingIgnoredDuringExecution := []
          PreferredDuringSchedulingIgnoredDuringExecution := [{
            Weight := 100
            PodAffinityTerm := {
              LabelSelector := some { MatchLabels := [("rack", "rack1")] }
              TopologyKey := "failure-domain.beta.kubernetes.io/zone" } }] }
        PodAntiAffinity := some {
          RequiredDuringSchedulingIgnoredDuringExecution := []
          PreferredDuringSchedulingIgnoredDuringExecution := [{
            Weight := 90
            PodAffinityTerm := {
              LabelSelector := some { MatchLabels := [("datacenter", "dc1")] }
              TopologyKey := "kubernetes.io/hostname" } }] } } :=
  ⟨rfl, placement_soft_preferences demoApi "rack1" demoDc 3 demoStatefulSet rfl⟩

/-! ## Session affinity of the seed service -/

/-- C16, the code at datacenter `dc1` of cluster `demo`: the seed service has
the client-IP configuration with no timeout, but its `SessionAffinity` field
is the empty zero value, not `ClientIP`. -/
theorem seed_service_session_affinity_unset :
    (newSeedServiceForDseDatacenter demoApi demoDc).Spec.SessionAffinity = "" ∧
      (newSeedServiceForDseDatacenter demoApi demoDc).Spec.SessionAffinity ≠ "ClientIP" ∧
      (newSeedServiceForDseDatacenter demoApi demoDc).Spec.SessionAffinityConfig
        = some { ClientIP := some { TimeoutSeconds := none } } := by
  decide

/-! ## The progress label after a failed update -/

/-- C17: when the progress label differs from the requested status (or is
absent) and the `Update` call fails with `err`, `addOperatorProgressLabel`
returns `err` and leaves the in-memory label map holding the new status, so
the next call with the same status returns success and leaves the context,
client state included, untouched (no `Update`). -/
theorem label_kept_after_failed_update {σ : Type} (P : Datastaxv1alpha1) (C : Client σ)
    (rc : ReconciliationContext σ) (status : dseOperatorStatus) (err : GoError)
    (hne : progressLabel P rc.DseDatacenter ≠ some status)
    (hfail : (C.Update rc.Client (withProgressLabel P rc.DseDatacenter status)).2 = some err) :
    (addOperatorProgressLabel P C rc status).2 = some err ∧
      progressLabel P (addOperatorProgressLabel P C rc status).1.DseDatacenter = some status ∧
      addOperatorProgressLabel P C (addOperatorProgressLabel P C rc status).1 status
        = ((addOperatorProgressLabel P C rc status).1, none) := by
  obtain ⟨h₁, _, h₃, _⟩ := addOperatorProgressLabel_of_not_held P C rc status hne
  have hheld : progressLabel P (addOperatorProgressLabel P C rc status).1.DseDatacenter
      = some status := by
    rw [h₁]; exact progressLabel_withProgressLabel P _ status
  exact ⟨h₃.trans hfail, hheld, addOperatorProgressLabel_of_held P C _ status hheld⟩

/-- C17 on a stub whose every `Update` fails, from a spec without labels. -/
theorem label_kept_after_failed_update_witness :
    progressLabel demoApi demoDc ≠ some updating ∧
      (failingClient.Update 0 (withProgressLabel demoApi demoDc updating)).2 = some "conflict" ∧
      ((addOperatorProgressLabel demoApi failingClient
          { DseDatacenter := demoDc, Client := 0 } updating).2 = some "conflict" ∧
        progressLabel demoApi (addOperatorProgressLabel demoApi failingClient
          { DseDatacenter := demoDc, Client := 0 } updating).1.DseDatacenter = some updating ∧
        addOperatorProgressLabel demoApi failingClient
            (addOperatorProgressLabel demoApi failingClient
              { DseDatacenter := demoDc, Client := 0 } updating).1 updating
          = ((addOperatorProgressLabel demoApi failingClient
              { DseDatacenter := demoDc, Client := 0 } updating).1, none)) :=
  ⟨by decide, rfl,
    label_kept_after_failed_update demoApi failingClient
      { DseDatacenter := demoDc, Client := 0 } updating "conflict" (by decide) rfl⟩

/-! ## Names across objects and racks -/

/-- C18: whenever `newStatefulSetForDseDatacenter` succeeds, the governing
`ServiceName` of the statefulset is the name of the cluster service built for
the same spec, and the two objects are in the same namespace. -/
theorem statefulSet_service_name (P : Datastaxv1alpha1) (rackName : String)
    (dc : DseDatacenter) (replicaCount : Int) (sts : StatefulSet)
    (h : newStatefulSetForDseDatacenter P rackName dc replicaCount = .ok sts) :
    sts.Spec.ServiceName = (newServiceForDseDatacenter P dc).ObjectMeta.Name ∧
      sts.ObjectMeta.Namespace = (newServiceForDseDatacenter P dc).ObjectMeta.Namespace := by
  obtain ⟨_, hns, hsn⟩ := newStatefulSet_names P rackName dc replicaCount sts h
  exact ⟨hsn, hns⟩

/-- C18 at rack `rack1` of datacenter `dc1` of cluster `demo`: the governing
service name is `demo-dc1-service`. -/
theorem statefulSet_service_name_witness :
    newStatefulSetForDseDatacenter demoApi "rack1" demoDc 3 = .ok demoStatefulSet ∧
      demoStatefulSet.Spec.ServiceName = "demo-dc1-service" ∧
      (demoStatefulSet.Spec.ServiceName
          = (newServiceForDseDatacenter demoApi demoDc).ObjectMeta.Name ∧
        demoStatefulSet.ObjectMeta.Namespace
          = (newServiceForDseDatacenter demoApi demoDc).ObjectMeta.Namespace) :=
  ⟨rfl, by decide, statefulSet_service_name demoApi "rack1" demoDc 3 demoStatefulSet rfl⟩

/-- C19: for two statefulsets built from one datacenter spec for racks `r₁` and
`r₂`, the statefulset names are equal exactly when `r₁ = r₂`, and so are the
names of the disruption budgets built from them. -/
theorem rack_names_do_not_collide (P : Datastaxv1alpha1) (dc : DseDatacenter)
    (r₁ r₂ : String) (n₁ n₂ : Int) (s₁ s₂ : StatefulSet)
    (h₁ : newStatefulSetForDseDatacenter P r₁ dc n₁ = .ok s₁)
    (h₂ : newStatefulSetForDseDatacenter P r₂ dc n₂ = .ok s₂) :
    (s₁.ObjectMeta.Name = s₂.ObjectMeta.Name ↔ r₁ = r₂) ∧
      ((newPodDisruptionBudgetForStatefulSet P dc s₁).ObjectMeta.Name
          = (newPodDisruptionBudgetForStatefulSet P dc s₂).ObjectMeta.Name ↔ r₁ = r₂) := by
  obtain ⟨e₁, _, _⟩ := newStatefulSet_names P r₁ dc n₁ s₁ h₁
  obtain ⟨e₂, _, _⟩ := newStatefulSet_names P r₂ dc n₂ s₂ h₂
  have hsts : s₁.ObjectMeta.Name = s₂.ObjectMeta.Name ↔ r₁ = r₂ := by
    rw [e₁, e₂]
    constructor
    · intro he
      exact string_append_cancel_left (string_append_cancel_right he)
    · intro he
      rw [he]
  refine ⟨hsts, ?_⟩
  have hp₁ : (newPodDisruptionBudgetForStatefulSet P dc s₁).ObjectMeta.Name
      = s₁.ObjectMeta.Name ++ "-pdb" := rfl
  have hp₂ : (newPodDisruptionBudgetForStatefulSet P dc s₂).ObjectMeta.Name
      = s₂.ObjectMeta.Name ++ "-pdb" := rfl
  rw [hp₁, hp₂, ← hsts]
  constructor
  · exact string_append_cancel_right
  · intro he
    rw [he]

/-- C19 at racks `rack1` and `rack2` of datacenter `dc1` of cluster `demo`. -/
theorem rack_names_do_not_collide_witness :
    newStatefulSetForDseDatacenter demoApi "rack1" demoDc 3 = .ok demoStatefulSet ∧
      newStatefulSetForDseDatacenter demoApi "rack2" demoDc 2 = .ok demoStatefulSetRack2 ∧
      ((demoStatefulSet.ObjectMeta.Name = demoStatefulSetRack2.ObjectMeta.Name
          ↔ "rack1" = "rack2") ∧
        ((newPodDisruptionBudgetForStatefulSet demoApi demoDc demoStatefulSet).ObjectMeta.Name
            = (newPodDisruptionBudgetForStatefulSet demoApi demoDc
                demoStatefulSetRack2).ObjectMeta.Name
          ↔ "rack1" = "rack2")) :=
  ⟨rfl, rfl,
    rack_names_do_not_collide demoApi demoDc "rack1" "rack2" 3 2 demoStatefulSet
      demoStatefulSetRack2 rfl rfl⟩

/-! ## Volumes -/

/-- C20: whenever `newStatefulSetForDseDatacenter` succeeds, with or without a
storage claim, the pod has one init container and one main container, its
only declared volume is the emptyDir `dse-config`, every volume mount of the
two containers names a declared volume or a volume-claim template of the
statefulset, and both containers mount `dse-config` at `/config`. -/
theorem volume_mounts_refer_to_volumes (P : Datastaxv1alpha1) (rackName : String)
    (dc : DseDatacenter) (replicaCount : Int) (sts : StatefulSet)
    (h : newStatefulSetForDseDatacenter P rackName dc replicaCount = .ok sts) :
    ∃ init main, sts.Spec.Template.Spec.InitContainers = [init] ∧
      sts.Spec.Template.Spec.Containers = [main] ∧
      sts.Spec.Template.Spec.Volumes
        = [{ Name := "dse-config", VolumeSource := { EmptyDir := some {} } }] ∧
      (∀ c, c = init ∨ c = main → ∀ m ∈ c.VolumeMounts,
        m.Name ∈ sts.Spec.Template.Spec.Volumes.map (fun v => v.Name) ∨
          m.Name ∈ sts.Spec.VolumeClaimTemplates.map (fun t => t.ObjectMeta.Name)) ∧
      (∀ c, c = init ∨ c = main →
        ({ Name := "dse-config", MountPath := "/config" } : VolumeMount) ∈ c.VolumeMounts) := by
  unfold newStatefulSetForDseDatacenter at h
  cases hc : P.GetConfigAsJSON dc with
  | error e => simp [hc] at h
  | ok configData =>
    simp only [hc] at h
    cases hs : dc.Spec.StorageClaim <;> simp only [hs, Except.ok.injEq] at h <;>
      subst h <;> refine ⟨_, _, rfl, rfl, rfl, ?_, ?_⟩
    · rintro c (rfl | rfl) m hm <;>
        simp [dseConfigVolumeMount] at hm <;> subst hm <;> simp
    · rintro c (rfl | rfl) <;> simp [dseConfigVolumeMount]
    · rintro c (rfl | rfl) m hm <;>
        simp [dseConfigVolumeMount] at hm
      · subst hm; simp
      · rcases hm with rfl | rfl <;> simp
    · rintro c (rfl | rfl) <;> simp [dseConfigVolumeMount]

/-- C20 at rack `rack1` of datacenter `dc1` of cluster `demo`, with a storage
claim. -/
theorem volume_mounts_refer_to_volumes_witness :
    newStatefulSetForDseDatacenter demoApi "rack1" demoDcStorage 3
        = .ok demoStatefulSetStorage ∧
      ∃ init main, demoStatefulSetStorage.Spec.Template.Spec.InitContainers = [init] ∧
        demoStatefulSetStorage.Spec.Template.Spec.Containers = [main] ∧
        demoStatefulSetStorage.Spec.Template.Spec.Volumes
          = [{ Name := "dse-config", VolumeSource := { EmptyDir := some {} } }] ∧
        (∀ c, c = init ∨ c = main → ∀ m ∈ c.VolumeMounts,
          m.Name ∈ demoStatefulSetStorage.Spec.Template.Spec.Volumes.map (fun v => v.Name) ∨
            m.Name ∈ demoStatefulSetStorage.Spec.VolumeClaimTemplates.map
              (fun t => t.ObjectMeta.Name)) ∧
        (∀ c, c = init ∨ c = main →
          ({ Name := "dse-config", MountPath := "/config" } : VolumeMount) ∈ c.VolumeMounts) :=
  ⟨rfl,
    volume_mounts_refer_to_volumes demoApi "rack1" demoDcStorage 3 demoStatefulSetStorage rfl⟩

end Reconciliation
